import Mathlib

/-
Verification of the E-learn platform core (src/main.py) against its
natural-language specification.

The relational sqlite store is embedded as explicit lists of rows, with
store-assigned AUTOINCREMENT surrogate keys modelled as next-id counters.
Each operation of the source is translated into a pure state-passing
function on the store.  The bcrypt library is modelled abstractly: a
digest records the hashed password and its salt, and verification
re-derives and compares (hash collisions are ignored, which is bcrypt's
design intent).  Randomness of `bcrypt.gensalt()` is made explicit by
passing the salt as an argument.
-/

namespace ELearn

/-- Role of a user, as constrained by the CHECK on the users table:
role IN ('Student', 'Instructor', 'Admin'). -/
inductive Role
| Student
| Instructor
| Admin
deriving DecidableEq

/-- Abstract model of a bcrypt digest: `bcrypt.hashpw(pw, salt)` produces a
digest from which `bcrypt.checkpw` can re-derive and compare.  The digest
embeds the salt, as bcrypt's fixed-format output does. -/
structure HashVal where
  pw : String
  salt : Nat
deriving DecidableEq

/-- Model of bcrypt.hashpw: deterministic in the password and the salt. -/
def hashpw (password : String) (salt : Nat) : HashVal := ⟨password, salt⟩

/-- Model of bcrypt.checkpw: verification succeeds exactly when the
candidate plaintext equals the plaintext the digest was derived from. -/
def checkpw (password : String) (h : HashVal) : Bool := password == h.pw

/-- Row of the users table: id INTEGER PRIMARY KEY AUTOINCREMENT,
username TEXT UNIQUE NOT NULL, password BLOB NOT NULL, role TEXT CHECK(...). -/
structure User where
  id : Nat
  username : String
  password : HashVal
  role : Role
deriving DecidableEq

/-- Row of the courses table: id, title TEXT UNIQUE NOT NULL, description,
instructor_id, price REAL.  No claim computes with the price, so it is
carried as an integer number of cents-like units. -/
structure Course where
  id : Nat
  title : String
  description : String
  instructor_id : Nat
  price : Int
deriving DecidableEq

/-- Row of the enrollments table: id, student_id, course_id,
progress INTEGER DEFAULT 0.  Note the schema declares NO UNIQUE constraint
on (student_id, course_id), and the FOREIGN KEY clauses are inert because
the source never issues PRAGMA foreign_keys=ON (sqlite default: off). -/
structure Enrollment where
  id : Nat
  student_id : Nat
  course_id : Nat
  progress : Int
deriving DecidableEq

/-- The whole sqlite database file: the three tables plus the AUTOINCREMENT
counters for their surrogate keys. -/
structure DB where
  users : List User
  courses : List Course
  enrollments : List Enrollment
  next_user_id : Nat
  next_course_id : Nat
  next_enrollment_id : Nat
deriving DecidableEq

namespace DatabaseHandler

/-- Test used to decide whether an INSERT into users violates the UNIQUE
constraint on username. -/
def usernameTaken (username : String) (users : List User) : Bool :=
  users.any (fun u => u.username == username)

/-- Test used to decide whether an INSERT into courses violates the UNIQUE
constraint on title. -/
def titleTaken (title : String) (courses : List Course) : Bool :=
  courses.any (fun c => c.title == title)

/-- DatabaseHandler.setup_database, seeding part (src/main.py lines 56-66):
after creating the tables, SELECT * FROM users WHERE role = 'Admin'; if no
row comes back, INSERT ('admin', bcrypt.hashpw('admin123', gensalt()),
'Admin').  The INSERT is not wrapped in try/except, so if a non-Admin user
named 'admin' already exists the UNIQUE violation escapes as an uncaught
sqlite3.IntegrityError, modelled as Except.error. -/
def setup_database (salt : Nat) (db : DB) : Except Unit DB :=
  if db.users.any (fun u => u.role == Role.Admin) then Except.ok db
  else if usernameTaken "admin" db.users then Except.error ()
  else Except.ok { db with
    users := db.users ++ [⟨db.next_user_id, "admin", hashpw "admin123" salt, Role.Admin⟩],
    next_user_id := db.next_user_id + 1 }

/-- DatabaseHandler.add_user (lines 69-83): INSERT the salted hash; on
sqlite3.IntegrityError (username already present) return False with no
write, else commit and return True. -/
def add_user (username password : String) (role : Role) (salt : Nat) (db : DB) :
    DB × Bool :=
  if usernameTaken username db.users then (db, false)
  else ({ db with
    users := db.users ++ [⟨db.next_user_id, username, hashpw password salt, role⟩],
    next_user_id := db.next_user_id + 1 }, true)

/-- DatabaseHandler.get_user (lines 85-91): SELECT * FROM users WHERE
username = ?, fetchone — the first matching row, or none. -/
def get_user (username : String) (db : DB) : Option User :=
  db.users.find? (fun u => u.username == username)

/-- DatabaseHandler.delete_user (lines 101-106): DELETE FROM users WHERE
id = ?. -/
def delete_user (user_id : Nat) (db : DB) : DB :=
  { db with users := db.users.filter (fun u => u.id != user_id) }

/-- DatabaseHandler.add_course (lines 109-122): INSERT; on IntegrityError
(duplicate title) return False, else True. -/
def add_course (title description : String) (instructor_id : Nat) (price : Int)
    (db : DB) : DB × Bool :=
  if titleTaken title db.courses then (db, false)
  else ({ db with
    courses := db.courses ++ [⟨db.next_course_id, title, description, instructor_id, price⟩],
    next_course_id := db.next_course_id + 1 }, true)

/-- DatabaseHandler.delete_course (lines 146-151): DELETE FROM courses
WHERE id = ?.  Nothing else is touched: no cascading delete of
enrollments referencing the course. -/
def delete_course (course_id : Nat) (db : DB) : DB :=
  { db with courses := db.courses.filter (fun c => c.id != course_id) }

/-- DatabaseHandler.enroll_student (lines 154-167): INSERT (student_id,
course_id) with progress defaulting to 0.  The enrollments table has no
UNIQUE constraint beyond its autoincrement primary key, and foreign keys
are off, so sqlite never raises IntegrityError here: the except branch
returning False is dead code and the operation always succeeds. -/
def enroll_student (student_id course_id : Nat) (db : DB) : DB × Bool :=
  ({ db with
    enrollments := db.enrollments ++ [⟨db.next_enrollment_id, student_id, course_id, 0⟩],
    next_enrollment_id := db.next_enrollment_id + 1 }, true)

/-- DatabaseHandler.update_progress (lines 182-189): UPDATE enrollments
SET progress = ? WHERE student_id = ? AND course_id = ?.  Total: an UPDATE
matching zero rows is not an error and the function returns nothing. -/
def update_progress (student_id course_id : Nat) (progress : Int) (db : DB) : DB :=
  { db with enrollments := db.enrollments.map (fun e =>
      if e.student_id == student_id && e.course_id == course_id then
        { e with progress := progress } else e) }

end DatabaseHandler

namespace LoginFrame

/-- Core of LoginFrame.login (lines 313-319), after the UI has stripped the
two entry fields and checked them non-empty: look the user up by username
and verify the plaintext with bcrypt.checkpw; on match the session identity
(id, username, role) is produced, else none. -/
def authenticate (username password : String) (db : DB) :
    Option (Nat × String × Role) :=
  match DatabaseHandler.get_user username db with
  | some u => if checkpw password u.password then some (u.id, u.username, u.role) else none
  | none => none

end LoginFrame

namespace AdminDashboard

/-- Outcome of the admin delete-user handler. -/
inductive DeleteUserResult
| rejectedSelf
| cancelled
| deleted
deriving DecidableEq

/-- AdminDashboard.delete_user (lines 834-855), given the (id, username)
values of the selected row and the session's username: if the target
username equals the session's own username the request is rejected with an
error before any write; otherwise, after a yes/no confirmation, the row is
deleted by id. -/
def delete_user (target_id : Nat) (target_username session_username : String)
    (confirm : Bool) (db : DB) : DB × DeleteUserResult :=
  if target_username == session_username then (db, DeleteUserResult.rejectedSelf)
  else if confirm then (DatabaseHandler.delete_user target_id db, DeleteUserResult.deleted)
  else (db, DeleteUserResult.cancelled)

/-- AdminDashboard.promote_user (lines 857-879), given the (id, role)
values of the selected row: if the displayed role is not Student the
request is rejected with an error and nothing is written; otherwise
UPDATE users SET role = 'Instructor' WHERE id = ?. -/
def promote_user (target_id : Nat) (target_role : Role) (db : DB) : DB × Bool :=
  if target_role != Role.Student then (db, false)
  else ({ db with users := db.users.map (fun u =>
    if u.id == target_id then { u with role := Role.Instructor } else u) }, true)

end AdminDashboard

namespace CourseDetailsFrame

/-- Outcome of the instructor bulk progress-update handler. -/
inductive BulkResult
| inputError
| noStudents
| updated
deriving DecidableEq

/-- The JOIN condition of the bulk-update SELECT (lines 1033-1038): an
enrollment row only joins when some users row has its student_id. -/
def studentExists (db : DB) (e : Enrollment) : Bool :=
  db.users.any (fun u => u.id == e.student_id)

/-- One iteration of the bulk-update loop (lines 1046-1050):
UPDATE enrollments SET progress = ? WHERE id = ?. -/
def set_progress_by_id (eid : Nat) (p : Int) (es : List Enrollment) :
    List Enrollment :=
  es.map (fun e => if e.id == eid then { e with progress := p } else e)

/-- CourseDetailsFrame.update_progress (lines 1014-1053): validate the
entered progress as a digit string in [0,100]; SELECT the enrollment ids
of the course via an inner JOIN with users; if the joined result is empty
show an informational message and write nothing; else UPDATE each selected
enrollment row by id in a loop and commit. -/
def update_progress (course_id : Nat) (p : Int) (db : DB) : DB × BulkResult :=
  if p < 0 ∨ 100 < p then (db, BulkResult.inputError)
  else
    let matched := db.enrollments.filter
      (fun e => e.course_id == course_id && studentExists db e)
    if matched.isEmpty then (db, BulkResult.noStudents)
    else
      let ids := matched.map (fun e => e.id)
      ({ db with enrollments :=
          ids.foldl (fun es eid => set_progress_by_id eid p es) db.enrollments },
       BulkResult.updated)

end CourseDetailsFrame

namespace ProfileFrame

/-- Outcome of the change-password handler. -/
inductive CPResult
| inputError
| crash
| wrongCurrent
| tooShort
| mismatch
| ok
deriving DecidableEq

/-- ProfileFrame.change_password (lines 1130-1167), given the session's
(id, username) and the three stripped entry fields: empty field → warning
and return; look the session user up by username (an absent row would make
the Python subscript user[2] raise, modelled as crash); wrong current
password → error before the length check; new password shorter than 6 →
warning; confirmation mismatch → warning; else UPDATE users SET
password = bcrypt.hashpw(new, gensalt()) WHERE id = session id. -/
def change_password (session_id : Nat) (session_username : String)
    (current new confirm : String) (salt : Nat) (db : DB) : DB × CPResult :=
  if current == "" || new == "" || confirm == "" then (db, CPResult.inputError)
  else
    match DatabaseHandler.get_user session_username db with
    | none => (db, CPResult.crash)
    | some u =>
      if !(checkpw current u.password) then (db, CPResult.wrongCurrent)
      else if new.length < 6 then (db, CPResult.tooShort)
      else if new != confirm then (db, CPResult.mismatch)
      else ({ db with users := db.users.map (fun w =>
        if w.id == session_id then { w with password := hashpw new salt } else w) },
        CPResult.ok)

end ProfileFrame

/-! Helper lemmas shared by the claim theorems. -/

/-- When a username is not present, looking it up finds nothing. -/
lemma find_username_of_not_taken (n : String) (users : List User)
    (h : DatabaseHandler.usernameTaken n users = false) :
    users.find? (fun u => u.username == n) = none :=
  List.find?_eq_none.mpr (List.any_eq_false.mp h)

/-- Mapping a username-preserving row transformation through the store
commutes with lookup by username. -/
lemma find_username_map (f : User → User) (hf : ∀ u, (f u).username = u.username)
    (users : List User) (n : String) :
    (users.map f).find? (fun u => u.username == n)
      = (users.find? (fun u => u.username == n)).map f := by
  induction users with
  | nil => rfl
  | cons a l ih =>
    simp only [List.map_cons, List.find?]
    rw [hf a]
    cases hb : (a.username == n) with
    | true => rfl
    | false => simpa using ih

/-! Claim C1.  The spec says a second enroll for the same
(studentId, courseId) pair fails with AlreadyEnrolled, leaving exactly one
row.  The schema defines no UNIQUE constraint on that pair (and foreign
keys are never enabled), so the INSERT in enroll_student cannot raise
sqlite3.IntegrityError: the second call also succeeds and a duplicate row
is inserted.  The except-branch of enroll_student and its caller's
"You are already enrolled in this course" message show the rejection was
intended, so this is a defect of the code. -/

/-- Store with the seeded admin, one student (id 2) and one course (id 1),
and no enrollments. -/
def c1db : DB :=
  ⟨[⟨1, "admin", hashpw "admin123" 0, Role.Admin⟩,
    ⟨2, "stu", hashpw "secret1" 1, Role.Student⟩],
   [⟨1, "Algebra", "intro", 1, 10⟩], [], 3, 2, 1⟩

/-- C1: enrolling student 2 in course 1 twice: both calls report success
and afterwards two enrollment rows carry the pair (2, 1) — the code
violates the claimed AlreadyEnrolled rejection and the uniqueness of the
pair. -/
theorem enroll_duplicate_pair_not_rejected :
    (DatabaseHandler.enroll_student 2 1 c1db).2 = true ∧
    (DatabaseHandler.enroll_student 2 1 (DatabaseHandler.enroll_student 2 1 c1db).1).2 = true ∧
    ((DatabaseHandler.enroll_student 2 1 (DatabaseHandler.enroll_student 2 1 c1db).1).1.enrollments.countP
      (fun e => e.student_id == 2 && e.course_id == 1)) = 2 := by
  decide

/-! Claim C9.  deleteCourse removes only the matching courses row; every
enrollment row — orphaned ones included — and every user row is left
unchanged, since the DELETE touches only the courses table and no cascade
exists. -/

/-- C9: delete_course removes exactly the courses rows whose id matches and
leaves the enrollments and users tables untouched. -/
theorem delete_course_preserves_enrollments (db : DB) (cid : Nat) :
    (DatabaseHandler.delete_course cid db).enrollments = db.enrollments ∧
    (DatabaseHandler.delete_course cid db).users = db.users ∧
    (DatabaseHandler.delete_course cid db).courses
      = db.courses.filter (fun c => c.id != cid) :=
  ⟨rfl, rfl, rfl⟩

/-! Claim C10.  The single-target UPDATE of DatabaseHandler.update_progress
matches no row when the (student, course) pair is absent; sqlite treats
that as a successful statement updating zero rows, so the call returns
normally and the store is unchanged — the miss is never reported. -/

/-- C10: when no enrollment row carries the (studentId, courseId) pair, the
single-target update_progress is a silent no-op: it returns without error
and the store is exactly the input store. -/
theorem update_progress_missing_pair_noop (db : DB) (sid cid : Nat) (p : Int)
    (h : ∀ e ∈ db.enrollments, ¬(e.student_id = sid ∧ e.course_id = cid)) :
    DatabaseHandler.update_progress sid cid p db = db := by
  unfold DatabaseHandler.update_progress
  have h2 : ∀ e ∈ db.enrollments,
      (if e.student_id == sid && e.course_id == cid then { e with progress := p } else e) = e := by
    intro e he
    have hb : ¬((e.student_id == sid && e.course_id == cid) = true) := by
      intro hb
      simp only [Bool.and_eq_true, beq_iff_eq] at hb
      exact h e he hb
    simp [hb]
  rw [List.map_congr_left h2]
  simp

/-- C10 witness: a concrete store holding one enrollment of the pair (2, 3)
is untouched by an update aimed at the absent pair (9, 9). -/
theorem update_progress_missing_pair_noop_witness :
    DatabaseHandler.update_progress 9 9 50 ⟨[], [], [⟨1, 2, 3, 0⟩], 1, 1, 2⟩
      = ⟨[], [], [⟨1, 2, 3, 0⟩], 1, 1, 2⟩ :=
  update_progress_missing_pair_noop ⟨[], [], [⟨1, 2, 3, 0⟩], 1, 1, 2⟩ 9 9 50 (by decide)

/-! Claim C3.  Registering the same username twice: the UNIQUE constraint
on users.username makes the second INSERT raise IntegrityError, which
add_user catches, returning False with nothing written. -/

/-- C3: starting from a store not containing the username, the first
add_user succeeds, the second fails, the failed call leaves the store
exactly as the first call left it, and exactly one row with that username
persists. -/
theorem register_duplicate_username_rejected (db : DB) (username p1 p2 : String)
    (r1 r2 : Role) (s1 s2 : Nat)
    (h : DatabaseHandler.usernameTaken username db.users = false) :
    (DatabaseHandler.add_user username p1 r1 s1 db).2 = true ∧
    (DatabaseHandler.add_user username p2 r2 s2
      (DatabaseHandler.add_user username p1 r1 s1 db).1).2 = false ∧
    (DatabaseHandler.add_user username p2 r2 s2
      (DatabaseHandler.add_user username p1 r1 s1 db).1).1
      = (DatabaseHandler.add_user username p1 r1 s1 db).1 ∧
    ((DatabaseHandler.add_user username p1 r1 s1 db).1.users.countP
      (fun u => u.username == username)) = 1 := by
  have hcount : db.users.countP (fun u => u.username == username) = 0 :=
    List.countP_eq_zero.mpr (List.any_eq_false.mp h)
  have htaken : DatabaseHandler.usernameTaken username
      (db.users ++ [⟨db.next_user_id, username, hashpw p1 s1, r1⟩]) = true := by
    simp [DatabaseHandler.usernameTaken]
  refine ⟨?_, ?_, ?_, ?_⟩ <;>
    simp [DatabaseHandler.add_user, h, htaken, List.countP_append, hcount, List.countP_cons]

/-- C3 witness: registering "alice" twice on the empty store. -/
theorem register_duplicate_username_rejected_witness :
    (DatabaseHandler.add_user "alice" "hunter77" Role.Student 3
      (DatabaseHandler.add_user "alice" "pw1pw1" Role.Student 2
        ⟨[], [], [], 1, 1, 1⟩).1).2 = false :=
  (register_duplicate_username_rejected ⟨[], [], [], 1, 1, 1⟩ "alice" "pw1pw1" "hunter77"
    Role.Student Role.Student 2 3 (by decide)).2.1

/-! Claim C4.  register followed by authenticate with the same credentials
succeeds and yields the stored (id, username, role); any other password
fails verification; and the row stores the salted bcrypt digest of the
password, not the plaintext (the password column holds a digest value
hashpw password salt, compared only through checkpw). -/

/-- C4: after a successful add_user on a store free of the username,
authenticate with the same credentials returns the new identity, any
different password yields none, and the stored credential is the salted
digest of the password. -/
theorem register_then_authenticate (db : DB) (username password : String)
    (role : Role) (salt : Nat)
    (h : DatabaseHandler.usernameTaken username db.users = false) :
    (DatabaseHandler.add_user username password role salt db).2 = true ∧
    LoginFrame.authenticate username password
      (DatabaseHandler.add_user username password role salt db).1
      = some (db.next_user_id, username, role) ∧
    (∀ p2 : String, p2 ≠ password →
      LoginFrame.authenticate username p2
        (DatabaseHandler.add_user username password role salt db).1 = none) ∧
    DatabaseHandler.get_user username
      (DatabaseHandler.add_user username password role salt db).1
      = some ⟨db.next_user_id, username, hashpw password salt, role⟩ := by
  have hfind := find_username_of_not_taken username db.users h
  have hget : DatabaseHandler.get_user username
      (DatabaseHandler.add_user username password role salt db).1
      = some ⟨db.next_user_id, username, hashpw password salt, role⟩ := by
    simp [DatabaseHandler.add_user, h, DatabaseHandler.get_user, List.find?_append, hfind]
  refine ⟨by simp [DatabaseHandler.add_user, h], ?_, ?_, hget⟩
  · simp [LoginFrame.authenticate, hget, checkpw, hashpw]
  · intro p2 hp2
    simp [LoginFrame.authenticate, hget, checkpw, hashpw, hp2]

/-- C4 witness: registering "alice" with password "hunter77" on the empty
store; the matching password authenticates as (1, "alice", Student) and
the password "wrongpw" does not. -/
theorem register_then_authenticate_witness :
    LoginFrame.authenticate "alice" "hunter77"
      (DatabaseHandler.add_user "alice" "hunter77" Role.Student 3
        ⟨[], [], [], 1, 1, 1⟩).1 = some (1, "alice", Role.Student) ∧
    LoginFrame.authenticate "alice" "wrongpw"
      (DatabaseHandler.add_user "alice" "hunter77" Role.Student 3
        ⟨[], [], [], 1, 1, 1⟩).1 = none :=
  ⟨(register_then_authenticate ⟨[], [], [], 1, 1, 1⟩ "alice" "hunter77" Role.Student 3
      (by decide)).2.1,
   (register_then_authenticate ⟨[], [], [], 1, 1, 1⟩ "alice" "hunter77" Role.Student 3
      (by decide)).2.2.1 "wrongpw" (by decide)⟩

/-! Claim C2.  Seeding of the default admin.  The claim quantifies over
every store with no Admin row, but the seeding INSERT is not guarded
against a username collision: a store holding a non-Admin user named
"admin" makes the INSERT violate the UNIQUE constraint and the uncaught
sqlite3.IntegrityError aborts initialization with nothing seeded.  The
claim holds once the store is also free of the username "admin". -/

/-- Store with a Student named "admin" and no Admin row: seeding crashes. -/
def c2db : DB := ⟨[⟨1, "admin", hashpw "letmein" 0, Role.Student⟩], [], [], 2, 1, 1⟩

/-- C2 counterexample: c2db contains no user with role Admin, yet
initialization does not seed an Admin — it aborts with an uncaught
uniqueness violation, refuting the claim as stated. -/
theorem admin_seed_counterexample :
    (c2db.users.any (fun u => u.role == Role.Admin)) = false ∧
    DatabaseHandler.setup_database 0 c2db = Except.error () :=
  ⟨by decide, rfl⟩

/-- The store produced by a successful admin seeding. -/
def seeded (salt : Nat) (db : DB) : DB :=
  { db with
    users := db.users ++ [⟨db.next_user_id, "admin", hashpw "admin123" salt, Role.Admin⟩],
    next_user_id := db.next_user_id + 1 }

/-- C2 amended: if an Admin row exists, initialization seeds nothing; if no
Admin row exists and no user is named "admin", it seeds exactly one Admin
("admin"/"admin123") and authenticate("admin", "admin123") then succeeds
with that identity and role Admin. -/
theorem admin_seed (db : DB) (salt : Nat) :
    (db.users.any (fun u => u.role == Role.Admin) = true →
      DatabaseHandler.setup_database salt db = Except.ok db) ∧
    (db.users.any (fun u => u.role == Role.Admin) = false →
      DatabaseHandler.usernameTaken "admin" db.users = false →
      DatabaseHandler.setup_database salt db = Except.ok (seeded salt db) ∧
      (seeded salt db).users.countP (fun u => u.role == Role.Admin) = 1 ∧
      LoginFrame.authenticate "admin" "admin123" (seeded salt db)
        = some (db.next_user_id, "admin", Role.Admin)) := by
  constructor
  · intro h
    simp [DatabaseHandler.setup_database, h]
  · intro h hn
    refine ⟨by simp [DatabaseHandler.setup_database, h, hn, seeded], ?_, ?_⟩
    · have hzero : db.users.countP (fun u => u.role == Role.Admin) = 0 :=
        List.countP_eq_zero.mpr (List.any_eq_false.mp h)
      simp [seeded, List.countP_append, hzero]
    · have hfind := find_username_of_not_taken "admin" db.users hn
      have hget : DatabaseHandler.get_user "admin" (seeded salt db)
          = some ⟨db.next_user_id, "admin", hashpw "admin123" salt, Role.Admin⟩ := by
        simp [DatabaseHandler.get_user, seeded, List.find?_append, hfind]
      simp [LoginFrame.authenticate, hget, checkpw, hashpw]

/-- C2 witness: seeding the empty store creates the admin row and the
default credentials authenticate as (1, "admin", Admin). -/
theorem admin_seed_witness :
    DatabaseHandler.setup_database 5 ⟨[], [], [], 1, 1, 1⟩
      = Except.ok ⟨[⟨1, "admin", hashpw "admin123" 5, Role.Admin⟩], [], [], 2, 1, 1⟩ ∧
    LoginFrame.authenticate "admin" "admin123"
      ⟨[⟨1, "admin", hashpw "admin123" 5, Role.Admin⟩], [], [], 2, 1, 1⟩
      = some (1, "admin", Role.Admin) := by
  have h := (admin_seed ⟨[], [], [], 1, 1, 1⟩ 5).2 (by decide) (by decide)
  exact ⟨h.1, h.2.2⟩

/-! Claim C5.  changePassword.  The claim's success clause asserts the old
password stops authenticating, but when the new password equals the old
one the call still succeeds (current verifies, length is fine) and the old
password — being the new one — keeps authenticating.  The claim holds with
the old-password clause qualified by new ≠ current.  The empty-field guard
and the confirmation field of the handler are UI input collection, outside
the claim's two-argument contract: the theorems fix confirm = new and
non-empty fields. -/

/-- Store with a single student "bob" whose password is "secret1". -/
def c5db : DB := ⟨[⟨1, "bob", hashpw "secret1" 0, Role.Student⟩], [], [], 2, 1, 1⟩

/-- C5 counterexample: changing bob's password from "secret1" to "secret1"
succeeds, and afterwards the old password still authenticates — the claim
as stated demands that authenticate with the old password fail after every
successful call. -/
theorem change_password_same_counterexample :
    (ProfileFrame.change_password 1 "bob" "secret1" "secret1" "secret1" 7 c5db).2
      = ProfileFrame.CPResult.ok ∧
    LoginFrame.authenticate "bob" "secret1"
      (ProfileFrame.change_password 1 "bob" "secret1" "secret1" "secret1" 7 c5db).1
      = some (1, "bob", Role.Student) := by
  constructor <;> rfl

/-- C5 amended: for a session user u looked up by username, with non-empty
fields and confirm = new: a non-verifying current password fails with
WrongCurrentPassword and writes nothing; a verifying current with a new
password shorter than 6 fails with TooShort and writes nothing; a
verifying current with a new password of length at least 6 succeeds,
after which the new password authenticates and — provided new differs from
current — the old password no longer does. -/
theorem change_password_spec (db : DB) (sid : Nat) (sname current new : String)
    (salt : Nat) (u : User)
    (hu : DatabaseHandler.get_user sname db = some u)
    (hid : u.id = sid)
    (hc : current ≠ "") (hn : new ≠ "") :
    (checkpw current u.password = false →
      ProfileFrame.change_password sid sname current new new salt db
        = (db, ProfileFrame.CPResult.wrongCurrent)) ∧
    (checkpw current u.password = true → new.length < 6 →
      ProfileFrame.change_password sid sname current new new salt db
        = (db, ProfileFrame.CPResult.tooShort)) ∧
    (checkpw current u.password = true → 6 ≤ new.length →
      (ProfileFrame.change_password sid sname current new new salt db).2
        = ProfileFrame.CPResult.ok ∧
      LoginFrame.authenticate sname new
        (ProfileFrame.change_password sid sname current new new salt db).1
        = some (u.id, u.username, u.role) ∧
      (new ≠ current →
        LoginFrame.authenticate sname current
          (ProfileFrame.change_password sid sname current new new salt db).1
          = none)) := by
  have hcb : (current == "") = false := beq_eq_false_iff_ne.mpr hc
  have hnb : (new == "") = false := beq_eq_false_iff_ne.mpr hn
  have hf : ∀ w : User,
      ((fun w : User =>
        if w.id == sid then { w with password := hashpw new salt } else w) w).username
        = w.username := by
    intro w
    by_cases hw : (w.id == sid) = true
    · simp [hw]
    · simp at hw
      simp [hw]
  refine ⟨?_, ?_, ?_⟩
  · intro hw
    simp [ProfileFrame.change_password, hcb, hnb, hu, hw]
  · intro hok hlen
    simp [ProfileFrame.change_password, hcb, hnb, hu, hok, hlen]
  · intro hok hlen
    have hlen2 : ¬(new.length < 6) := by omega
    have hdb : ProfileFrame.change_password sid sname current new new salt db
        = ({ db with users := db.users.map (fun w =>
            if w.id == sid then { w with password := hashpw new salt } else w) },
           ProfileFrame.CPResult.ok) := by
      simp [ProfileFrame.change_password, hcb, hnb, hu, hok, hlen2]
    have hget : DatabaseHandler.get_user sname
        (ProfileFrame.change_password sid sname current new new salt db).1
        = some { u with password := hashpw new salt } := by
      rw [hdb]
      simp only [DatabaseHandler.get_user]
      rw [find_username_map _ hf db.users sname]
      rw [show db.users.find? (fun w => w.username == sname) = some u from hu]
      simp [hid]
    refine ⟨by rw [hdb], ?_, ?_⟩
    · simp [LoginFrame.authenticate, hget, checkpw, hashpw]
    · intro hne
      have hcf : (current == new) = false := beq_eq_false_iff_ne.mpr (Ne.symm hne)
      simp [LoginFrame.authenticate, hget, checkpw, hashpw, hcf]

/-- C5 witness: bob changes "secret1" to "newpass1"; the call succeeds, the
new password authenticates and the old one no longer does; and with a
wrong current password the call fails with WrongCurrentPassword leaving
the store intact. -/
theorem change_password_spec_witness :
    (ProfileFrame.change_password 1 "bob" "secret1" "newpass1" "newpass1" 7 c5db).2
      = ProfileFrame.CPResult.ok ∧
    LoginFrame.authenticate "bob" "newpass1"
      (ProfileFrame.change_password 1 "bob" "secret1" "newpass1" "newpass1" 7 c5db).1
      = some (1, "bob", Role.Student) ∧
    LoginFrame.authenticate "bob" "secret1"
      (ProfileFrame.change_password 1 "bob" "secret1" "newpass1" "newpass1" 7 c5db).1
      = none ∧
    ProfileFrame.change_password 1 "bob" "wrongpw" "newpass1" "newpass1" 7 c5db
      = (c5db, ProfileFrame.CPResult.wrongCurrent) := by
  have h := change_password_spec c5db 1 "bob" "secret1" "newpass1" 7
    ⟨1, "bob", hashpw "secret1" 0, Role.Student⟩ rfl rfl (by decide) (by decide)
  have h2 := change_password_spec c5db 1 "bob" "wrongpw" "newpass1" 7
    ⟨1, "bob", hashpw "secret1" 0, Role.Student⟩ rfl rfl (by decide) (by decide)
  have hs := h.2.2 (by decide) (by decide)
  exact ⟨hs.1, hs.2.1, hs.2.2 (by decide), h2.1 (by decide)⟩

/-! Claim C6.  Promotion: only Student → Instructor; any other displayed
role is rejected with nothing written, and after a successful promotion a
login for that user reports role Instructor.  The handler reads the
target's (id, role) from the user list shown to the admin; the hypotheses
tie those displayed values to the store row. -/

/-- C6: with the target row's (id, role) consistent with the store (u is
the first user carrying its username, u.id = uid, u.role = r): a non-Student
role is rejected with the store unchanged, and promoting a Student flips
exactly the rows with that id to Instructor, after which authenticating
with any password verifying u's credential yields role Instructor. -/
theorem promote_student_only (db : DB) (uid : Nat) (r : Role) (u : User)
    (hu : DatabaseHandler.get_user u.username db = some u)
    (hid : u.id = uid) (hrole : u.role = r) :
    (r ≠ Role.Student → AdminDashboard.promote_user uid r db = (db, false)) ∧
    (r = Role.Student →
      (AdminDashboard.promote_user uid r db).2 = true ∧
      (AdminDashboard.promote_user uid r db).1.users
        = db.users.map (fun w =>
            if w.id == uid then { w with role := Role.Instructor } else w) ∧
      (∀ pw : String, checkpw pw u.password = true →
        LoginFrame.authenticate u.username pw (AdminDashboard.promote_user uid r db).1
          = some (u.id, u.username, Role.Instructor))) := by
  have hf : ∀ w : User,
      ((fun w : User =>
        if w.id == uid then { w with role := Role.Instructor } else w) w).username
        = w.username := by
    intro w
    by_cases hw : (w.id == uid) = true
    · simp [hw]
    · simp at hw
      simp [hw]
  constructor
  · intro h
    simp [AdminDashboard.promote_user, h]
  · intro h
    subst h
    refine ⟨by simp [AdminDashboard.promote_user], by simp [AdminDashboard.promote_user], ?_⟩
    intro pw hpw
    have hget : DatabaseHandler.get_user u.username
        (AdminDashboard.promote_user uid Role.Student db).1
        = some { u with role := Role.Instructor } := by
      simp only [AdminDashboard.promote_user]
      simp only [bne_self_eq_false, Bool.false_eq_true, if_false]
      simp only [DatabaseHandler.get_user]
      rw [find_username_map _ hf db.users u.username]
      rw [show db.users.find? (fun w => w.username == u.username) = some u from hu]
      simp [hid]
    simp [LoginFrame.authenticate, hget, hpw]

/-- C6 witness: the student "stu" (id 2) is promoted; the Instructor row
then authenticates with the verifying password "secret1" as Instructor;
and promoting the Admin row "admin" (id 1) is rejected unchanged. -/
theorem promote_student_only_witness :
    (AdminDashboard.promote_user 2 Role.Student c1db).2 = true ∧
    LoginFrame.authenticate "stu" "secret1" (AdminDashboard.promote_user 2 Role.Student c1db).1
      = some (2, "stu", Role.Instructor) ∧
    AdminDashboard.promote_user 1 Role.Admin c1db = (c1db, false) := by
  have h := promote_student_only c1db 2 Role.Student
    ⟨2, "stu", hashpw "secret1" 1, Role.Student⟩ rfl rfl rfl
  have h2 := promote_student_only c1db 1 Role.Admin
    ⟨1, "admin", hashpw "admin123" 0, Role.Admin⟩ rfl rfl rfl
  have hs := h.2 rfl
  exact ⟨hs.1, hs.2.2 "secret1" (by decide), h2.1 (by decide)⟩

/-! Claim C8.  Admin delete-user: deleting the identity the session is
authenticated as is rejected before any write; deleting any other user
removes exactly that user's row.  The handler compares usernames, which
identify users uniquely. -/

/-- Deleting one present user by id removes exactly one row when ids are
unique across the users table. -/
lemma length_filter_ne_of_mem (t : User) (l : List User) (ht : t ∈ l)
    (hnd : (l.map (fun u => u.id)).Nodup) :
    (l.filter (fun u => u.id != t.id)).length + 1 = l.length := by
  induction l with
  | nil => cases ht
  | cons a l ih =>
    rw [List.map_cons, List.nodup_cons] at hnd
    by_cases hat : a.id = t.id
    · have hkeep : l.filter (fun u => u.id != t.id) = l := by
        refine List.filter_eq_self.mpr ?_
        intro w hw
        have hne : w.id ≠ t.id := by
          intro he
          exact hnd.1 (by rw [← hat] at he; exact List.mem_map.mpr ⟨w, hw, he⟩)
        simpa using hne
      have hdrop : (a.id != t.id) = false := by simp [hat]
      simp [List.filter_cons, hdrop, hkeep]
    · have ht2 : t ∈ l := by
        cases List.mem_cons.mp ht with
        | inl h => exact absurd (congrArg User.id h.symm) hat
        | inr h => exact h
      have hkeep : (a.id != t.id) = true := by simpa using hat
      simp only [List.filter_cons, hkeep, if_true, List.length_cons]
      rw [← ih ht2 hnd.2]

/-- C8: with unique ids in the store and the target row t present: a
request aimed at the session's own username is rejected with the store
unchanged; a request aimed at any other username (confirmed) reports
deletion, keeps exactly the rows whose id differs from t's, drops t,
preserves every other row, and shrinks the table by exactly one row. -/
theorem admin_delete_user_spec (db : DB) (t : User) (sess_name : String)
    (ht : t ∈ db.users)
    (hnd : (db.users.map (fun u => u.id)).Nodup) :
    (t.username = sess_name →
      AdminDashboard.delete_user t.id t.username sess_name true db
        = (db, AdminDashboard.DeleteUserResult.rejectedSelf)) ∧
    (t.username ≠ sess_name →
      (AdminDashboard.delete_user t.id t.username sess_name true db).2
        = AdminDashboard.DeleteUserResult.deleted ∧
      (AdminDashboard.delete_user t.id t.username sess_name true db).1.users
        = db.users.filter (fun u => u.id != t.id) ∧
      t ∉ (AdminDashboard.delete_user t.id t.username sess_name true db).1.users ∧
      (∀ u ∈ db.users, u.id ≠ t.id →
        u ∈ (AdminDashboard.delete_user t.id t.username sess_name true db).1.users) ∧
      (AdminDashboard.delete_user t.id t.username sess_name true db).1.users.length + 1
        = db.users.length) := by
  constructor
  · intro h
    simp [AdminDashboard.delete_user, h]
  · intro h
    have hb : (t.username == sess_name) = false := beq_eq_false_iff_ne.mpr h
    have hrun : AdminDashboard.delete_user t.id t.username sess_name true db
        = (DatabaseHandler.delete_user t.id db, AdminDashboard.DeleteUserResult.deleted) := by
      simp [AdminDashboard.delete_user, hb]
    refine ⟨by rw [hrun], by rw [hrun]; rfl, ?_, ?_, ?_⟩
    · rw [hrun]
      intro hmem
      have := (List.mem_filter.mp hmem).2
      simp at this
    · intro w hw hne
      rw [hrun]
      exact List.mem_filter.mpr ⟨hw, by simpa using hne⟩
    · rw [hrun]
      exact length_filter_ne_of_mem t db.users ht hnd

/-- C8 witness: in the seeded two-user store, the admin session deleting
its own row is rejected, while deleting the student row (id 2) removes
exactly that row. -/
theorem admin_delete_user_spec_witness :
    AdminDashboard.delete_user 1 "admin" "admin" true c1db
      = (c1db, AdminDashboard.DeleteUserResult.rejectedSelf) ∧
    (AdminDashboard.delete_user 2 "stu" "admin" true c1db).1.users
      = [⟨1, "admin", hashpw "admin123" 0, Role.Admin⟩] ∧
    (AdminDashboard.delete_user 2 "stu" "admin" true c1db).1.users.length + 1
      = c1db.users.length := by
  have h1 := admin_delete_user_spec c1db
    ⟨1, "admin", hashpw "admin123" 0, Role.Admin⟩ "admin" (by decide) (by decide)
  have h2 := admin_delete_user_spec c1db
    ⟨2, "stu", hashpw "secret1" 1, Role.Student⟩ "admin" (by decide) (by decide)
  have hs := h2.2 (by decide)
  refine ⟨h1.1 rfl, ?_, hs.2.2.2.2⟩
  rw [hs.2.1]
  rfl

/-! Claim C7.  Bulk progress update.  The handler selects the target
enrollment ids through an inner JOIN with the users table, so an
enrollment whose student row no longer exists (user deletion does not
cascade) is silently excluded: it is neither updated nor counted when the
handler decides whether any student is enrolled.  The claim as stated —
every enrollment row of the course is set — fails on such orphaned rows;
it holds for the rows whose student reference resolves. -/

/-- The per-id update loop is one conditional pass over the table: a row is
set exactly when its id was selected. -/
lemma foldl_set_progress (p : Int) (ids : List Nat) (es : List Enrollment) :
    ids.foldl (fun acc eid => CourseDetailsFrame.set_progress_by_id eid p acc) es
      = es.map (fun e => if e.id ∈ ids then { e with progress := p } else e) := by
  induction ids generalizing es with
  | nil => simp
  | cons a as ih =>
    simp only [List.foldl_cons]
    rw [ih]
    unfold CourseDetailsFrame.set_progress_by_id
    rw [List.map_map]
    refine List.map_congr_left ?_
    intro e _
    simp only [Function.comp]
    by_cases h1 : e.id = a
    · have hb : (e.id == a) = true := by simpa using h1
      have step1 : (if e.id == a then { e with progress := p } else e)
          = { e with progress := p } := by simp [hb]
      rw [step1]
      have hmem : e.id ∈ a :: as := by rw [h1]; exact List.mem_cons_self a as
      rw [if_pos hmem]
      by_cases h2 : e.id ∈ as
      · have h3 : ({ e with progress := p } : Enrollment).id ∈ as := h2
        rw [if_pos h3]
      · have h3 : ({ e with progress := p } : Enrollment).id ∉ as := h2
        rw [if_neg h3]
    · have hb : (e.id == a) = false := by simpa using h1
      have step1 : (if e.id == a then { e with progress := p } else e) = e := by simp [hb]
      rw [step1]
      have hmem : (e.id ∈ a :: as) ↔ (e.id ∈ as) := by simp [List.mem_cons, h1]
      by_cases h2 : e.id ∈ as
      · rw [if_pos h2, if_pos (hmem.mpr h2)]
      · rw [if_neg h2, if_neg (fun hc => h2 (hmem.mp hc))]

/-- Rows matched by the bulk-update SELECT: same course and a resolving
student reference. -/
def joinedRow (db : DB) (cid : Nat) (e : Enrollment) : Bool :=
  e.course_id == cid && CourseDetailsFrame.studentExists db e

/-- Store with one course and one orphaned enrollment: the enrollment's
student 5 has no users row. -/
def c7db : DB := ⟨[], [⟨1, "Algebra", "intro", 9, 0⟩], [⟨1, 5, 1, 0⟩], 1, 2, 2⟩

/-- C7 counterexample: course 1 has an enrollment row, yet the bulk update
to 75 writes nothing and reports that no students are enrolled, because
the row's student reference is dangling — the claim as stated requires
that row to read progress 75 afterwards. -/
theorem bulk_update_orphan_counterexample :
    (CourseDetailsFrame.update_progress 1 75 c7db).2
      = CourseDetailsFrame.BulkResult.noStudents ∧
    (CourseDetailsFrame.update_progress 1 75 c7db).1.enrollments = [⟨1, 5, 1, 0⟩] ∧
    c7db.enrollments.countP (fun e => e.course_id == 1) = 1 := by
  refine ⟨rfl, rfl, by decide⟩

/-- C7 amended: for a progress value in [0,100] and a store whose
enrollment ids are unique: when no enrollment of the course has a
resolving student reference the handler writes nothing and reports the
informational no-students signal; otherwise it reports success, leaves
users and courses untouched, and sets progress to p on exactly the
enrollment rows of the course whose student exists, leaving every other
enrollment row — other courses and orphaned rows — unchanged. -/
theorem bulk_update_joined_rows (db : DB) (cid : Nat) (p : Int)
    (hp0 : 0 ≤ p) (hp1 : p ≤ 100)
    (hnd : (db.enrollments.map (fun e => e.id)).Nodup) :
    (db.enrollments.filter (joinedRow db cid) = [] →
      CourseDetailsFrame.update_progress cid p db
        = (db, CourseDetailsFrame.BulkResult.noStudents)) ∧
    (db.enrollments.filter (joinedRow db cid) ≠ [] →
      (CourseDetailsFrame.update_progress cid p db).2
        = CourseDetailsFrame.BulkResult.updated ∧
      (CourseDetailsFrame.update_progress cid p db).1.users = db.users ∧
      (CourseDetailsFrame.update_progress cid p db).1.courses = db.courses ∧
      (CourseDetailsFrame.update_progress cid p db).1.enrollments
        = db.enrollments.map (fun e =>
            if joinedRow db cid e then { e with progress := p } else e)) := by
  have hrange : ¬(p < 0 ∨ 100 < p) := by omega
  constructor
  · intro h
    have hemp : (db.enrollments.filter
        (fun e => e.course_id == cid && CourseDetailsFrame.studentExists db e)).isEmpty
        = true := by
      have h2 : db.enrollments.filter
          (fun e => e.course_id == cid && CourseDetailsFrame.studentExists db e) = [] := by
        simpa [joinedRow] using h
      rw [h2]
      rfl
    simp [CourseDetailsFrame.update_progress, hrange, hemp]
  · intro h
    have hne : (db.enrollments.filter
        (fun e => e.course_id == cid && CourseDetailsFrame.studentExists db e)).isEmpty
        = false := by
      cases hval : db.enrollments.filter
          (fun e => e.course_id == cid && CourseDetailsFrame.studentExists db e) with
      | nil => exact absurd hval (by simpa [joinedRow] using h)
      | cons a l => rfl
    have hids : ∀ e ∈ db.enrollments,
        (e.id ∈ (db.enrollments.filter (joinedRow db cid)).map (fun x => x.id))
          ↔ joinedRow db cid e = true := by
      intro e he
      constructor
      · intro hin
        rcases List.mem_map.mp hin with ⟨e2, he2, hide⟩
        rcases List.mem_filter.mp he2 with ⟨he2m, hj⟩
        have heq := List.inj_on_of_nodup_map hnd he2m he hide
        rwa [← heq]
      · intro hj
        exact List.mem_map.mpr ⟨e, List.mem_filter.mpr ⟨he, hj⟩, rfl⟩
    have hmain : CourseDetailsFrame.update_progress cid p db = ({ db with enrollments := ((db.enrollments.filter (joinedRow db cid)).map (fun x => x.id)).foldl (fun es eid => CourseDetailsFrame.set_progress_by_id eid p es) db.enrollments }, CourseDetailsFrame.BulkResult.updated) := by
      unfold CourseDetailsFrame.update_progress
      rw [if_neg hrange]
      simp only [joinedRow]
      rw [if_neg (by simp [hne])]
      rfl
    rw [hmain]
    refine ⟨rfl, rfl, rfl, ?_⟩
    rw [foldl_set_progress]
    refine List.map_congr_left ?_
    intro e he
    by_cases hj : joinedRow db cid e = true
    · rw [if_pos ((hids e he).mpr hj), if_pos hj]
    · have hj2 : ¬(e.id ∈ (db.enrollments.filter (joinedRow db cid)).map (fun x => x.id)) :=
        fun hin => hj ((hids e he).mp hin)
      rw [if_neg hj2, if_neg hj]

/-- C7 witness: two students enrolled in course 1 and one enrolled in
course 2; the bulk update of course 1 to 75 sets both course-1 rows and
leaves the course-2 row at its old progress. -/
theorem bulk_update_joined_rows_witness :
    (CourseDetailsFrame.update_progress 1 75
      ⟨[⟨1, "a", hashpw "x" 0, Role.Student⟩, ⟨2, "b", hashpw "y" 0, Role.Student⟩],
       [⟨1, "T1", "d", 9, 0⟩, ⟨2, "T2", "d", 9, 0⟩],
       [⟨1, 1, 1, 10⟩, ⟨2, 2, 1, 20⟩, ⟨3, 1, 2, 30⟩], 3, 3, 4⟩).1.enrollments
      = [⟨1, 1, 1, 75⟩, ⟨2, 2, 1, 75⟩, ⟨3, 1, 2, 30⟩] := by
  have h := (bulk_update_joined_rows
    ⟨[⟨1, "a", hashpw "x" 0, Role.Student⟩, ⟨2, "b", hashpw "y" 0, Role.Student⟩],
     [⟨1, "T1", "d", 9, 0⟩, ⟨2, "T2", "d", 9, 0⟩],
     [⟨1, 1, 1, 10⟩, ⟨2, 2, 1, 20⟩, ⟨3, 1, 2, 30⟩], 3, 3, 4⟩ 1 75
    (by decide) (by decide) (by decide)).2 (by decide)
  rw [h.2.2.2]
  rfl

end ELearn
